import Mathlib

/-!
Shallow embedding of `src/Data_Edit.py` (Snowflake-Data-Editor), a single-page
Streamlit table editor.  The script's effectful calls against the Snowpark
session are modelled by explicit state passing:

* `Catalog` is the remote catalog the `SHOW` queries read from.
* `Env` fixes, for one execution, which remote statements fail (a raised
  `SnowparkSQLException` / `Exception`) and the text `str(e)` of the raised
  exception.
* `AppState` carries everything the script mutates: the `st.cache_data`
  memoisation store, the session's current role, the lists of messages shown
  through `st.error` / `st.sidebar.error` and `st.success` / `st.sidebar.success`,
  the log of statements actually executed against the session, the rows of the
  remote target table, and the `st.session_state.df` buffer.

Each handler in the script becomes a total Lean function `AppState → AppState`
(no exception escapes any handler in the source: every fallible block is wrapped
in `try/except`, which the totality of the embedding reflects).
-/

namespace DataEdit

/-- The remote catalog state read by the `SHOW` queries. -/
structure Catalog where
  roles : List String
  databases : List String
  schemas : String → List String
  tables : String → String → List String

/-- Which remote statements fail during this execution, and the exception text
`str(e)` observed when one does. -/
structure Env where
  catalog : Catalog
  showRolesFails : Bool
  showDatabasesFails : Bool
  showSchemasFails : String → Bool
  showTablesFails : String → String → Bool
  useRoleFails : String → Bool
  truncateFails : Bool
  writePandasFails : Bool
  exnText : String

/-- The `st.cache_data` memoisation store: one entry per cached function,
keyed by that function's arguments (`get_databases` and `get_roles` take no
arguments, so a single optional entry each). -/
structure Cache where
  roles : Option (List String)
  databases : Option (List String)
  schemas : List (String × List String)
  tables : List ((String × String) × List String)
deriving DecidableEq

/-- The cache after `st.cache_data.clear()`. -/
def emptyCache : Cache :=
  { roles := none, databases := none, schemas := [], tables := [] }

/-- Lookup in the memoisation store for `get_schemas` (keyed by the database
argument). -/
def lookupSchemas : List (String × List String) → String → Option (List String)
  | [], _ => none
  | (k, v) :: rest, d => if k = d then some v else lookupSchemas rest d

/-- Lookup in the memoisation store for `get_tables` (keyed by the database and
schema arguments). -/
def lookupTables : List ((String × String) × List String) → String → String →
    Option (List String)
  | [], _, _ => none
  | (k, v) :: rest, d, s => if k = (d, s) then some v else lookupTables rest d s

/-- The script's mutable state: memoisation store, session role, surfaced
messages, executed statements, the remote target table's rows, and the
`st.session_state.df` buffer.  A row is modelled as a list of cell values. -/
structure AppState where
  cache : Cache
  currentRole : String
  errors : List String
  infos : List String
  stmts : List String
  remote : List (List String)
  df : List (List String)
deriving DecidableEq

/-- `get_databases` (lines 70-77): on a cache hit, returns the memoised value
without touching the session; on a miss, runs `SHOW DATABASES`, filters out the
reserved `"SNOWFLAKE"` database (`if row["name"] not in ["SNOWFLAKE"]`), and
memoises the result; on query failure, shows
`Error fetching databases: {str(e)}` and returns `[]`, which `st.cache_data`
memoises like any other return value. -/
def get_databases (env : Env) (st : AppState) : List String × AppState :=
  match st.cache.databases with
  | some v => (v, st)
  | none =>
    if env.showDatabasesFails then
      ([], { st with
               stmts := st.stmts ++ ["SHOW DATABASES"],
               errors := st.errors ++ ["Error fetching databases: " ++ env.exnText],
               cache := { st.cache with databases := some [] } })
    else
      let v := env.catalog.databases.filter (fun n => n != "SNOWFLAKE")
      (v, { st with
              stmts := st.stmts ++ ["SHOW DATABASES"],
              cache := { st.cache with databases := some v } })

/-- `get_schemas` (lines 80-87): like `get_databases`, but keyed by the
database and filtering out `"INFORMATION_SCHEMA"`
(`if row["name"] != "INFORMATION_SCHEMA"`). -/
def get_schemas (env : Env) (st : AppState) (database : String) :
    List String × AppState :=
  match lookupSchemas st.cache.schemas database with
  | some v => (v, st)
  | none =>
    if env.showSchemasFails database then
      ([], { st with
               stmts := st.stmts ++ ["SHOW SCHEMAS IN DATABASE " ++ database],
               errors := st.errors ++ ["Error fetching schemas: " ++ env.exnText],
               cache := { st.cache with
                            schemas := (database, []) :: st.cache.schemas } })
    else
      let v := (env.catalog.schemas database).filter
                 (fun n => n != "INFORMATION_SCHEMA")
      (v, { st with
              stmts := st.stmts ++ ["SHOW SCHEMAS IN DATABASE " ++ database],
              cache := { st.cache with
                           schemas := (database, v) :: st.cache.schemas } })

/-- `get_tables` (lines 90-97): keyed by database and schema; no filtering. -/
def get_tables (env : Env) (st : AppState) (database schema : String) :
    List String × AppState :=
  match lookupTables st.cache.tables database schema with
  | some v => (v, st)
  | none =>
    if env.showTablesFails database schema then
      ([], { st with
               stmts := st.stmts ++
                 ["SHOW TABLES IN " ++ database ++ "." ++ schema],
               errors := st.errors ++ ["Error fetching tables: " ++ env.exnText],
               cache := { st.cache with
                            tables := ((database, schema), []) :: st.cache.tables } })
    else
      let v := env.catalog.tables database schema
      (v, { st with
              stmts := st.stmts ++
                ["SHOW TABLES IN " ++ database ++ "." ++ schema],
              cache := { st.cache with
                           tables := ((database, schema), v) :: st.cache.tables } })

/-- `get_roles` (lines 100-107): no filtering. -/
def get_roles (env : Env) (st : AppState) : List String × AppState :=
  match st.cache.roles with
  | some v => (v, st)
  | none =>
    if env.showRolesFails then
      ([], { st with
               stmts := st.stmts ++ ["SHOW ROLES"],
               errors := st.errors ++ ["Error fetching roles: " ++ env.exnText],
               cache := { st.cache with roles := some [] } })
    else
      let v := env.catalog.roles
      (v, { st with
              stmts := st.stmts ++ ["SHOW ROLES"],
              cache := { st.cache with roles := some v } })

/-- The role-switch handler (lines 114-123).  `current_role` is what
`SELECT CURRENT_ROLE()` returns, i.e. the session's active role.  The body runs
only under the guard `if selected_role != current_role`; inside it,
`USE ROLE {selected_role}` is attempted: on success the success banner is shown
and `st.cache_data.clear()` empties the whole memoisation store; on failure the
`except` branch shows `Error switching role: {str(e)}` and nothing else
changes (the failed `USE ROLE` leaves the session role as it was). -/
def roleSwitch (env : Env) (st : AppState) (selected : String) : AppState :=
  if selected = st.currentRole then st
  else if env.useRoleFails selected then
    { st with
        stmts := st.stmts ++ ["USE ROLE " ++ selected],
        errors := st.errors ++ ["Error switching role: " ++ env.exnText] }
  else
    { st with
        stmts := st.stmts ++ ["USE ROLE " ++ selected],
        currentRole := selected,
        infos := st.infos ++ ["Switched to role: " ++ selected],
        cache := emptyCache }

/-- The "Save Changes" handler (lines 168-183).  It runs
`TRUNCATE TABLE {db}.{schema}.{table}` and then
`session.write_pandas(edited_df, ...)` inside one `try`; the single
`except SnowparkSQLException` branch shows `Error saving changes: {str(e)}`.
There is no transaction: a successful truncate leaves the remote table empty
before the insert runs, and the `except` branch performs no rollback.  On
success the success banner is shown and `st.session_state.df` is set to the
edited buffer. -/
def saveChanges (env : Env) (st : AppState) (db schema table : String)
    (buffer : List (List String)) : AppState :=
  if env.truncateFails then
    { st with
        stmts := st.stmts ++
          ["TRUNCATE TABLE " ++ db ++ "." ++ schema ++ "." ++ table],
        errors := st.errors ++ ["Error saving changes: " ++ env.exnText] }
  else
    let st1 := { st with
                   stmts := st.stmts ++
                     ["TRUNCATE TABLE " ++ db ++ "." ++ schema ++ "." ++ table],
                   remote := [] }
    if env.writePandasFails then
      { st1 with
          stmts := st1.stmts ++
            ["WRITE_PANDAS " ++ db ++ "." ++ schema ++ "." ++ table],
          errors := st1.errors ++ ["Error saving changes: " ++ env.exnText] }
    else
      { st1 with
          stmts := st1.stmts ++
            ["WRITE_PANDAS " ++ db ++ "." ++ schema ++ "." ++ table],
          remote := buffer,
          infos := st1.infos ++ ["Changes saved successfully!"],
          df := buffer }

/-- `st.sidebar.selectbox(label, options)`: returns `None` when `options` is
empty; otherwise returns the user's pick when it is one of the options, and the
default (index 0) otherwise. -/
def selectbox (options : List String) (choice : Option String) : Option String :=
  match options with
  | [] => none
  | o :: _ =>
    match choice with
    | some c => if options.contains c then some c else some o
    | none => some o

/-- The cascading Selection State produced by one run of lines 126-143. -/
structure SelectionState where
  database : Option String
  schema : Option String
  table : Option String
  schemaCandidates : List String
  tableCandidates : List String
deriving DecidableEq

/-- One run of the cascading selection code (lines 126-143): the database
selectbox is populated from `get_databases`; only under `if selected_db:` are
the schema candidates computed and the schema selectbox shown (else
`schemas = []`, `selected_schema = None`); only under
`if selected_db and selected_schema:` are the table candidates computed and the
table selectbox shown (else `tables = []`, `selected_table = None`). -/
def runSelection (env : Env) (st : AppState)
    (dbChoice schemaChoice tableChoice : Option String) :
    SelectionState × AppState :=
  let dbs := get_databases env st
  match selectbox dbs.1 dbChoice with
  | none =>
    ({ database := none, schema := none, table := none,
       schemaCandidates := [], tableCandidates := [] }, dbs.2)
  | some d =>
    let schs := get_schemas env dbs.2 d
    match selectbox schs.1 schemaChoice with
    | none =>
      ({ database := some d, schema := none, table := none,
         schemaCandidates := schs.1, tableCandidates := [] }, schs.2)
    | some s =>
      let tbls := get_tables env schs.2 d s
      ({ database := some d, schema := some s,
         table := selectbox tbls.1 tableChoice,
         schemaCandidates := schs.1, tableCandidates := tbls.1 }, tbls.2)

/-- `true` iff `pat` is a prefix of `s` (over character lists). -/
def charPrefix : List Char → List Char → Bool
  | [], _ => true
  | _ :: _, [] => false
  | a :: as, b :: bs => a == b && charPrefix as bs

/-- `true` iff `pat` occurs as a contiguous substring of `s`. -/
def charSub (pat : List Char) : List Char → Bool
  | [] => charPrefix pat []
  | s :: rest => charPrefix pat (s :: rest) || charSub pat rest

/-- `true` iff `pat` occurs as a substring of `s`. -/
def containsSub (s pat : String) : Bool :=
  charSub pat.data s.data

/-- A decidable reading of "the message indicates the table is now empty": the
message mentions emptiness (the word "empty" in any common capitalisation, or
the phrase "zero rows"). -/
def mentionsEmpty (s : String) : Bool :=
  containsSub s "empty" || containsSub s "Empty" || containsSub s "EMPTY" ||
    containsSub s "zero rows"

/-! Concrete fixtures used by the witnesses and counterexamples. -/

/-- A small concrete catalog matching the spec's scenarios. -/
def cat0 : Catalog :=
  { roles := ["PUBLIC", "SYSADMIN"],
    databases := ["ANALYTICS", "SNOWFLAKE"],
    schemas := fun _ => ["PUBLIC", "INFORMATION_SCHEMA"],
    tables := fun _ _ => ["T1"] }

/-- A fresh application state: empty cache, no messages, a non-empty remote
table. -/
def st0 : AppState :=
  { cache := emptyCache, currentRole := "PUBLIC", errors := [], infos := [],
    stmts := [], remote := [["a"], ["b"]], df := [] }

/-- An environment in which every remote statement succeeds. -/
def envOK : Env :=
  { catalog := cat0, showRolesFails := false, showDatabasesFails := false,
    showSchemasFails := fun _ => false, showTablesFails := fun _ _ => false,
    useRoleFails := fun _ => false, truncateFails := false,
    writePandasFails := false, exnText := "SQL error" }

/-- Like `envOK` but `write_pandas` raises. -/
def envInsertFail : Env :=
  { envOK with writePandasFails := true }

/-- Like `envOK` but every catalog query and `USE ROLE` raises. -/
def envAllFail : Env :=
  { envOK with showRolesFails := true, showDatabasesFails := true,
               showSchemasFails := fun _ => true,
               showTablesFails := fun _ _ => true,
               useRoleFails := fun _ => true }

/-- C1: `save(database, schema, table, buffer)` first runs the truncate and
then the bulk insert, with no transaction spanning the two steps: in any
execution where the truncate completes and the insert then fails, the remote
table is left with zero rows (and the statement log shows the delete issued
before the insert). -/
theorem save_truncate_then_insert_nonatomic (env : Env) (st : AppState)
    (db schema table : String) (buffer : List (List String))
    (hT : env.truncateFails = false) (hW : env.writePandasFails = true) :
    (saveChanges env st db schema table buffer).remote = [] ∧
    (saveChanges env st db schema table buffer).stmts =
      st.stmts ++
        ["TRUNCATE TABLE " ++ db ++ "." ++ schema ++ "." ++ table,
         "WRITE_PANDAS " ++ db ++ "." ++ schema ++ "." ++ table] := by
  simp [saveChanges, hT, hW]

/-- Witness for C1 at a concrete input. -/
theorem save_truncate_then_insert_nonatomic_witness :
    envInsertFail.truncateFails = false ∧
    envInsertFail.writePandasFails = true ∧
    ((saveChanges envInsertFail st0 "ANALYTICS" "PUBLIC" "T1" [["x"]]).remote = [] ∧
     (saveChanges envInsertFail st0 "ANALYTICS" "PUBLIC" "T1" [["x"]]).stmts =
       st0.stmts ++
         ["TRUNCATE TABLE " ++ "ANALYTICS" ++ "." ++ "PUBLIC" ++ "." ++ "T1",
          "WRITE_PANDAS " ++ "ANALYTICS" ++ "." ++ "PUBLIC" ++ "." ++ "T1"]) :=
  ⟨rfl, rfl,
   save_truncate_then_insert_nonatomic envInsertFail st0
     "ANALYTICS" "PUBLIC" "T1" [["x"]] rfl rfl⟩

/-- C2 counterexample: a concrete save that fails on the bulk insert after the
truncate succeeded.  The remote table is left with zero rows, yet the only
surfaced failure report is the generic `Error saving changes: {str(e)}`
message, which does not indicate that the table is now empty (it contains
neither the word "empty" in any capitalisation nor the phrase "zero rows"). -/
theorem save_error_hides_emptiness_counterexample :
    envInsertFail.truncateFails = false ∧
    envInsertFail.writePandasFails = true ∧
    (saveChanges envInsertFail st0 "ANALYTICS" "PUBLIC" "T1" [["x"]]).remote = [] ∧
    (saveChanges envInsertFail st0 "ANALYTICS" "PUBLIC" "T1" [["x"]]).errors =
      ["Error saving changes: SQL error"] ∧
    mentionsEmpty "Error saving changes: SQL error" = false := by
  refine ⟨rfl, rfl, ?_, ?_, ?_⟩ <;> decide

/-- C2 amended: for every save that fails on the bulk insert after the truncate
has succeeded, a failure is surfaced to the user, but only as the generic
message `Error saving changes: {str(e)}`; the handler's own wording carries no
emptiness indication, even though the remote table is left with zero rows. -/
theorem save_insert_failure_reported_generic (env : Env) (st : AppState)
    (db schema table : String) (buffer : List (List String))
    (hT : env.truncateFails = false) (hW : env.writePandasFails = true) :
    (saveChanges env st db schema table buffer).remote = [] ∧
    (saveChanges env st db schema table buffer).errors =
      st.errors ++ ["Error saving changes: " ++ env.exnText] ∧
    mentionsEmpty "Error saving changes: " = false := by
  refine ⟨?_, ?_, by decide⟩ <;> simp [saveChanges, hT, hW]

/-- Witness for the amended C2 at a concrete input. -/
theorem save_insert_failure_reported_generic_witness :
    envInsertFail.truncateFails = false ∧
    envInsertFail.writePandasFails = true ∧
    ((saveChanges envInsertFail st0 "ANALYTICS" "PUBLIC" "T1" [["y"]]).remote = [] ∧
     (saveChanges envInsertFail st0 "ANALYTICS" "PUBLIC" "T1" [["y"]]).errors =
       st0.errors ++ ["Error saving changes: " ++ envInsertFail.exnText] ∧
     mentionsEmpty "Error saving changes: " = false) :=
  ⟨rfl, rfl,
   save_insert_failure_reported_generic envInsertFail st0
     "ANALYTICS" "PUBLIC" "T1" [["y"]] rfl rfl⟩

/-- C3: when a role switch fails, the active role afterward equals the
pre-switch role, the metadata cache is not invalidated (it is unchanged), and
the failure is surfaced as an `Error switching role: {str(e)}` message; the
handler is a total function, so no exception propagates past it. -/
theorem roleSwitch_failure_preserves (env : Env) (st : AppState)
    (selected : String) (hne : selected ≠ st.currentRole)
    (hf : env.useRoleFails selected = true) :
    (roleSwitch env st selected).currentRole = st.currentRole ∧
    (roleSwitch env st selected).cache = st.cache ∧
    (roleSwitch env st selected).errors =
      st.errors ++ ["Error switching role: " ++ env.exnText] := by
  simp [roleSwitch, hne, hf]

/-- Witness for C3 at a concrete input. -/
theorem roleSwitch_failure_preserves_witness :
    "SYSADMIN" ≠ st0.currentRole ∧
    envAllFail.useRoleFails "SYSADMIN" = true ∧
    ((roleSwitch envAllFail st0 "SYSADMIN").currentRole = st0.currentRole ∧
     (roleSwitch envAllFail st0 "SYSADMIN").cache = st0.cache ∧
     (roleSwitch envAllFail st0 "SYSADMIN").errors =
       st0.errors ++ ["Error switching role: " ++ envAllFail.exnText]) :=
  ⟨by decide, rfl,
   roleSwitch_failure_preserves envAllFail st0 "SYSADMIN" (by decide) rfl⟩

/-- C4: when a role switch succeeds, the active role is updated and the whole
memoisation store is cleared, so a subsequent `get_databases` call actually
issues `SHOW DATABASES` against the catalog (rather than answering from a
value cached under the old role) and returns the fresh catalog contents. -/
theorem roleSwitch_success_invalidates_cache (env env' : Env) (st : AppState)
    (selected : String) (hne : selected ≠ st.currentRole)
    (hs : env.useRoleFails selected = false)
    (hf' : env'.showDatabasesFails = false) :
    (roleSwitch env st selected).currentRole = selected ∧
    (roleSwitch env st selected).cache = emptyCache ∧
    (get_databases env' (roleSwitch env st selected)).2.stmts =
      (roleSwitch env st selected).stmts ++ ["SHOW DATABASES"] ∧
    (get_databases env' (roleSwitch env st selected)).1 =
      env'.catalog.databases.filter (fun n => n != "SNOWFLAKE") := by
  simp [roleSwitch, get_databases, emptyCache, hne, hs, hf']

/-- Witness for C4 at a concrete input. -/
theorem roleSwitch_success_invalidates_cache_witness :
    "SYSADMIN" ≠ st0.currentRole ∧
    envOK.useRoleFails "SYSADMIN" = false ∧
    envOK.showDatabasesFails = false ∧
    ((roleSwitch envOK st0 "SYSADMIN").currentRole = "SYSADMIN" ∧
     (roleSwitch envOK st0 "SYSADMIN").cache = emptyCache ∧
     (get_databases envOK (roleSwitch envOK st0 "SYSADMIN")).2.stmts =
       (roleSwitch envOK st0 "SYSADMIN").stmts ++ ["SHOW DATABASES"] ∧
     (get_databases envOK (roleSwitch envOK st0 "SYSADMIN")).1 =
       envOK.catalog.databases.filter (fun n => n != "SNOWFLAKE")) :=
  ⟨by decide, rfl, rfl,
   roleSwitch_success_invalidates_cache envOK envOK st0 "SYSADMIN"
     (by decide) rfl rfl⟩

/-- C10: selecting the role that is already the current role is a no-op: the
guard `if selected_role != current_role` is false, so no `USE ROLE` statement
is issued, the cache is not invalidated, and the state is unchanged. -/
theorem roleSwitch_same_role_noop (env : Env) (st : AppState) :
    roleSwitch env st st.currentRole = st ∧
    (roleSwitch env st st.currentRole).stmts = st.stmts ∧
    (roleSwitch env st st.currentRole).cache = st.cache := by
  simp [roleSwitch]

/-- C5 counterexample: the claim that setting the database to a new value
yields a state with schema and table unset is false on the code.  In a rerun
where the user has just picked the database `"ANALYTICS"` (the downstream
selectbox states having been reset by the options change), the schema
selectbox auto-selects the first recomputed candidate `"PUBLIC"` and the table
selectbox auto-selects `"T1"`: the resulting Selection State has schema and
table set, not unset. -/
theorem selection_dbchange_counterexample :
    (runSelection envOK st0 (some "ANALYTICS") none none).1.database =
      some "ANALYTICS" ∧
    (runSelection envOK st0 (some "ANALYTICS") none none).1.schema =
      some "PUBLIC" ∧
    (runSelection envOK st0 (some "ANALYTICS") none none).1.table =
      some "T1" ∧
    (runSelection envOK st0 (some "ANALYTICS") none none).1.schema ≠ none := by
  refine ⟨?_, ?_, ?_, ?_⟩ <;> decide

/-- C5 amended: the Selection State satisfies the hierarchy invariant — a
schema can only be selected when a database is, and a table only when both
are — and a rerun in which the database is set to `d` (the downstream
selectbox states reset, so the previous schema and table selections are
discarded) recomputes the schema candidates for `d` and auto-selects the first
entry of each recomputed candidate list; schema and table are unset only when
the corresponding candidate list is empty. -/
theorem selection_hierarchy_dbchange (env : Env) (st : AppState)
    (dbChoice schemaChoice tableChoice : Option String) (d : String)
    (hd : d ∈ (get_databases env st).1) :
    ((runSelection env st dbChoice schemaChoice tableChoice).1.schema.isSome →
      (runSelection env st dbChoice schemaChoice tableChoice).1.database.isSome) ∧
    ((runSelection env st dbChoice schemaChoice tableChoice).1.table.isSome →
      (runSelection env st dbChoice schemaChoice tableChoice).1.database.isSome ∧
      (runSelection env st dbChoice schemaChoice tableChoice).1.schema.isSome) ∧
    (runSelection env st (some d) none none).1.database = some d ∧
    (runSelection env st (some d) none none).1.schemaCandidates =
      (get_schemas env (get_databases env st).2 d).1 ∧
    (runSelection env st (some d) none none).1.schema =
      ((get_schemas env (get_databases env st).2 d).1).head? ∧
    (runSelection env st (some d) none none).1.table =
      (runSelection env st (some d) none none).1.tableCandidates.head? := by
  have hsel : selectbox (get_databases env st).1 (some d) = some d := by
    cases h : (get_databases env st).1 with
    | nil => rw [h] at hd; cases hd
    | cons o rest =>
      rw [h] at hd
      simp [selectbox, hd]
  refine ⟨?_, ?_, ?_⟩
  · cases hdb : selectbox (get_databases env st).1 dbChoice with
    | none => simp [runSelection, hdb]
    | some d0 =>
      cases hsch :
          selectbox (get_schemas env (get_databases env st).2 d0).1
            schemaChoice with
      | none => simp [runSelection, hdb, hsch]
      | some s0 => simp [runSelection, hdb, hsch]
  · cases hdb : selectbox (get_databases env st).1 dbChoice with
    | none => simp [runSelection, hdb]
    | some d0 =>
      cases hsch :
          selectbox (get_schemas env (get_databases env st).2 d0).1
            schemaChoice with
      | none => simp [runSelection, hdb, hsch]
      | some s0 => simp [runSelection, hdb, hsch]
  · have hnone : ∀ opts : List String, selectbox opts none = opts.head? := by
      intro opts
      cases opts <;> rfl
    cases hs : (get_schemas env (get_databases env st).2 d).1 with
    | nil => simp [runSelection, hsel, hnone, hs]
    | cons s rest =>
      cases ht :
          (get_tables env (get_schemas env (get_databases env st).2 d).2
            d s).1 with
      | nil => simp [runSelection, hsel, hnone, hs, ht]
      | cons t rest' => simp [runSelection, hsel, hnone, hs, ht]

/-- Witness for the amended C5 at a concrete input: picking the database
`"ANALYTICS"` recomputes the schema candidates `["PUBLIC"]` and auto-selects
schema `"PUBLIC"` and table `"T1"`. -/
theorem selection_hierarchy_dbchange_witness :
    "ANALYTICS" ∈ (get_databases envOK st0).1 ∧
    (((runSelection envOK st0 (some "ANALYTICS") (some "PUBLIC")
        (some "T1")).1.schema.isSome →
      (runSelection envOK st0 (some "ANALYTICS") (some "PUBLIC")
        (some "T1")).1.database.isSome) ∧
     ((runSelection envOK st0 (some "ANALYTICS") (some "PUBLIC")
        (some "T1")).1.table.isSome →
      (runSelection envOK st0 (some "ANALYTICS") (some "PUBLIC")
        (some "T1")).1.database.isSome ∧
      (runSelection envOK st0 (some "ANALYTICS") (some "PUBLIC")
        (some "T1")).1.schema.isSome) ∧
     (runSelection envOK st0 (some "ANALYTICS") none none).1.database =
       some "ANALYTICS" ∧
     (runSelection envOK st0 (some "ANALYTICS") none none).1.schemaCandidates =
       (get_schemas envOK (get_databases envOK st0).2 "ANALYTICS").1 ∧
     (runSelection envOK st0 (some "ANALYTICS") none none).1.schema =
       ((get_schemas envOK (get_databases envOK st0).2 "ANALYTICS").1).head? ∧
     (runSelection envOK st0 (some "ANALYTICS") none none).1.table =
       (runSelection envOK st0
         (some "ANALYTICS") none none).1.tableCandidates.head?) :=
  ⟨by decide,
   selection_hierarchy_dbchange envOK st0 (some "ANALYTICS") (some "PUBLIC")
     (some "T1") "ANALYTICS" (by decide)⟩

/-- C6: for each of the four metadata queries, when the cache has no entry for
the arguments and the underlying catalog query fails, the call surfaces an
`Error fetching ...: {str(e)}` message and returns the empty list; each getter
is a total function, so no exception propagates past the call. -/
theorem metadata_query_failure_returns_empty (env : Env) (st : AppState)
    (db schema : String)
    (hc1 : st.cache.databases = none) (hf1 : env.showDatabasesFails = true)
    (hc2 : lookupSchemas st.cache.schemas db = none)
    (hf2 : env.showSchemasFails db = true)
    (hc3 : lookupTables st.cache.tables db schema = none)
    (hf3 : env.showTablesFails db schema = true)
    (hc4 : st.cache.roles = none) (hf4 : env.showRolesFails = true) :
    ((get_databases env st).1 = [] ∧
     (get_databases env st).2.errors =
       st.errors ++ ["Error fetching databases: " ++ env.exnText]) ∧
    ((get_schemas env st db).1 = [] ∧
     (get_schemas env st db).2.errors =
       st.errors ++ ["Error fetching schemas: " ++ env.exnText]) ∧
    ((get_tables env st db schema).1 = [] ∧
     (get_tables env st db schema).2.errors =
       st.errors ++ ["Error fetching tables: " ++ env.exnText]) ∧
    ((get_roles env st).1 = [] ∧
     (get_roles env st).2.errors =
       st.errors ++ ["Error fetching roles: " ++ env.exnText]) := by
  simp [get_databases, get_schemas, get_tables, get_roles,
        hc1, hf1, hc2, hf2, hc3, hf3, hc4, hf4]

/-- Witness for C6 at a concrete input. -/
theorem metadata_query_failure_returns_empty_witness :
    st0.cache.databases = none ∧ envAllFail.showDatabasesFails = true ∧
    lookupSchemas st0.cache.schemas "ANALYTICS" = none ∧
    envAllFail.showSchemasFails "ANALYTICS" = true ∧
    lookupTables st0.cache.tables "ANALYTICS" "PUBLIC" = none ∧
    envAllFail.showTablesFails "ANALYTICS" "PUBLIC" = true ∧
    st0.cache.roles = none ∧ envAllFail.showRolesFails = true ∧
    (((get_databases envAllFail st0).1 = [] ∧
      (get_databases envAllFail st0).2.errors =
        st0.errors ++ ["Error fetching databases: " ++ envAllFail.exnText]) ∧
     ((get_schemas envAllFail st0 "ANALYTICS").1 = [] ∧
      (get_schemas envAllFail st0 "ANALYTICS").2.errors =
        st0.errors ++ ["Error fetching schemas: " ++ envAllFail.exnText]) ∧
     ((get_tables envAllFail st0 "ANALYTICS" "PUBLIC").1 = [] ∧
      (get_tables envAllFail st0 "ANALYTICS" "PUBLIC").2.errors =
        st0.errors ++ ["Error fetching tables: " ++ envAllFail.exnText]) ∧
     ((get_roles envAllFail st0).1 = [] ∧
      (get_roles envAllFail st0).2.errors =
        st0.errors ++ ["Error fetching roles: " ++ envAllFail.exnText])) :=
  ⟨rfl, rfl, rfl, rfl, rfl, rfl, rfl, rfl,
   metadata_query_failure_returns_empty envAllFail st0 "ANALYTICS" "PUBLIC"
     rfl rfl rfl rfl rfl rfl rfl rfl⟩

/-- C7: on a cache miss with a healthy catalog, `get_databases` returns
exactly the catalog's database names with the reserved `"SNOWFLAKE"` database
excluded. -/
theorem listDatabases_excludes_snowflake (env : Env) (st : AppState)
    (hc : st.cache.databases = none) (hf : env.showDatabasesFails = false) :
    (get_databases env st).1 =
      env.catalog.databases.filter (fun n => n != "SNOWFLAKE") ∧
    ∀ x, x ∈ (get_databases env st).1 ↔
      x ∈ env.catalog.databases ∧ x ≠ "SNOWFLAKE" := by
  constructor
  · simp [get_databases, hc, hf]
  · intro x
    simp [get_databases, hc, hf, List.mem_filter]

/-- Witness for C7, realising the spec's scenario: the catalog has databases
`{"ANALYTICS", "SNOWFLAKE"}` and the call returns `["ANALYTICS"]`. -/
theorem listDatabases_excludes_snowflake_witness :
    st0.cache.databases = none ∧ envOK.showDatabasesFails = false ∧
    ((get_databases envOK st0).1 =
       envOK.catalog.databases.filter (fun n => n != "SNOWFLAKE") ∧
     ∀ x, x ∈ (get_databases envOK st0).1 ↔
       x ∈ envOK.catalog.databases ∧ x ≠ "SNOWFLAKE") ∧
    envOK.catalog.databases = ["ANALYTICS", "SNOWFLAKE"] ∧
    (get_databases envOK st0).1 = ["ANALYTICS"] :=
  ⟨rfl, rfl, listDatabases_excludes_snowflake envOK st0 rfl rfl,
   rfl, by decide⟩

/-- C8: on a cache miss with a healthy catalog, `get_schemas database` returns
exactly the catalog's schema names for that database with
`"INFORMATION_SCHEMA"` excluded, even when the raw listing includes it. -/
theorem listSchemas_excludes_information_schema (env : Env) (st : AppState)
    (db : String) (hc : lookupSchemas st.cache.schemas db = none)
    (hf : env.showSchemasFails db = false) :
    (get_schemas env st db).1 =
      (env.catalog.schemas db).filter (fun n => n != "INFORMATION_SCHEMA") ∧
    ∀ x, x ∈ (get_schemas env st db).1 ↔
      x ∈ env.catalog.schemas db ∧ x ≠ "INFORMATION_SCHEMA" := by
  constructor
  · simp [get_schemas, hc, hf]
  · intro x
    simp [get_schemas, hc, hf, List.mem_filter]

/-- Witness for C8, realising the spec's scenario: the raw catalog listing for
`"ANALYTICS"` includes `"INFORMATION_SCHEMA"` but the returned list excludes
it. -/
theorem listSchemas_excludes_information_schema_witness :
    lookupSchemas st0.cache.schemas "ANALYTICS" = none ∧
    envOK.showSchemasFails "ANALYTICS" = false ∧
    ((get_schemas envOK st0 "ANALYTICS").1 =
       (envOK.catalog.schemas "ANALYTICS").filter
         (fun n => n != "INFORMATION_SCHEMA") ∧
     ∀ x, x ∈ (get_schemas envOK st0 "ANALYTICS").1 ↔
       x ∈ envOK.catalog.schemas "ANALYTICS" ∧ x ≠ "INFORMATION_SCHEMA") ∧
    "INFORMATION_SCHEMA" ∈ envOK.catalog.schemas "ANALYTICS" ∧
    (get_schemas envOK st0 "ANALYTICS").1 = ["PUBLIC"] :=
  ⟨rfl, rfl, listSchemas_excludes_information_schema envOK st0 "ANALYTICS" rfl rfl,
   by decide, by decide⟩

/-- C9: `st.cache_data` memoises the `[]` returned by the error branch exactly
like a success: after a failing `get_databases` call on a cache miss, the cache
holds `some []`, a subsequent call (in any environment, even a healthy one)
returns the cached `[]` and changes nothing — in particular it issues no
catalog query — and only after a successful role switch clears the cache does
the next call issue `SHOW DATABASES` again. -/
theorem failure_result_cached_until_role_switch (env env' env'' : Env)
    (st : AppState) (hc : st.cache.databases = none)
    (hf : env.showDatabasesFails = true) :
    (get_databases env st).1 = [] ∧
    (get_databases env st).2.cache.databases = some [] ∧
    (get_databases env' (get_databases env st).2).1 = [] ∧
    (get_databases env' (get_databases env st).2).2 = (get_databases env st).2 ∧
    (∀ sel, sel ≠ (get_databases env st).2.currentRole →
      env'.useRoleFails sel = false →
      (get_databases env''
          (roleSwitch env' (get_databases env st).2 sel)).2.stmts =
        (roleSwitch env' (get_databases env st).2 sel).stmts ++
          ["SHOW DATABASES"]) := by
  refine ⟨?_, ?_, ?_, ?_, ?_⟩
  · simp [get_databases, hc, hf]
  · simp [get_databases, hc, hf]
  · simp [get_databases, hc, hf]
  · simp [get_databases, hc, hf]
  · intro sel hsel hrole
    have hsel' : sel ≠ st.currentRole := by
      simpa [get_databases, hc, hf] using hsel
    cases h'' : env''.showDatabasesFails <;>
      simp [get_databases, roleSwitch, emptyCache, hc, hf, hsel', hrole, h'']

/-- Witness for C9 at a concrete input (the role-switch clause instantiated at
the role `"SYSADMIN"`). -/
theorem failure_result_cached_until_role_switch_witness :
    st0.cache.databases = none ∧ envAllFail.showDatabasesFails = true ∧
    (get_databases envAllFail st0).1 = [] ∧
    (get_databases envAllFail st0).2.cache.databases = some [] ∧
    (get_databases envOK (get_databases envAllFail st0).2).1 = [] ∧
    (get_databases envOK (get_databases envAllFail st0).2).2 =
      (get_databases envAllFail st0).2 ∧
    (get_databases envOK
        (roleSwitch envOK (get_databases envAllFail st0).2 "SYSADMIN")).2.stmts =
      (roleSwitch envOK (get_databases envAllFail st0).2 "SYSADMIN").stmts ++
        ["SHOW DATABASES"] :=
  have h := failure_result_cached_until_role_switch envAllFail envOK envOK st0
    rfl rfl
  ⟨rfl, rfl, h.1, h.2.1, h.2.2.1, h.2.2.2.1,
   h.2.2.2.2 "SYSADMIN" (by decide) rfl⟩

end DataEdit
